import Mathlib

/-!
Verification of the storage reconciliation engine of
cloud-platform-deployment-manager (controllers/host/storage.go).

The Go reconcilers are shallowly embedded as pure Lean functions over an
explicit state: `Sys` is the remote inventory service's authoritative state,
`HostInfo` the pass-scoped snapshot, and every remote mutation is recorded in
an event trace.  Helper methods of the snapshot (the Find* lookups), the
system-type / monitor-count queries of the surrounding manager, and the
remote system's responses are not part of storage.go; they are modelled from
the specification and marked as such in their doc comments.
-/

/-! ## Constants of the remote API (values of external packages) -/

/-- Modelled from the spec: host personality (role) names of the inventory API. -/
def PersonalityWorker : String := "worker"

/-- Modelled from the spec: the storage host role name. -/
def PersonalityStorage : String := "storage"

/-- Modelled from the spec: the controller host role name. -/
def PersonalityController : String := "controller"

/-- Modelled from the spec: the journal OSD function name of the inventory API. -/
def FunctionJournal : String := "journal"

/-- Modelled from the spec: the data OSD function name of the inventory API. -/
def FunctionOSD : String := "osd"

/-- Modelled from the spec: physical volume backed by a whole disk. -/
def PVTypeDisk : String := "disk"

/-- Modelled from the spec: physical volume backed by a disk partition. -/
def PVTypePartition : String := "partition"

/-- Modelled from the spec: transient partition status while being created. -/
def StatusCreating : String := "Creating"

/-- Modelled from the spec: transient partition status while being modified. -/
def StatusModifying : String := "Modifying"

/-- Modelled from the spec: transient partition status while being deleted. -/
def StatusDeleting : String := "Deleting"

/-- Modelled from the spec: a stable partition status. -/
def StatusReady : String := "Ready"

/-- Modelled from the spec: the undefined cluster deployment model. -/
def DeploymentModelUndefined : String := "undefined"

/-- Modelled from the spec: the deployment model assigning OSDs to storage hosts. -/
def DeploymentModelStorage : String := "storage-nodes"

/-- Modelled from the spec: the deployment model assigning OSDs to controllers. -/
def DeploymentModelController : String := "controller-nodes"

/-- Modelled from the spec: the name of the storage tier OSDs are assigned to. -/
def StorageTierName : String := "storage"

/-- Modelled from the spec: minimum number of enabled Ceph monitors required
before OSDs may be provisioned on a multi-node system. -/
def OSDMinimumMonitorCount : Nat := 2

/-- strings.EqualFold restricted to simple case folding: the two strings are
equal once both are mapped to lower case character by character. -/
def EqualFold (a b : String) : Bool :=
  a.data.map Char.toLower == b.data.map Char.toLower

/-! ## Resource records of the host snapshot -/

structure Disk where
  id : String
  path : String
deriving DecidableEq

/-- A disk partition record.  `path` is the backing disk path, `group` the
owning volume group (empty when not yet associated). -/
structure DiskPartition where
  id : String
  path : String
  size : Int
  group : String
  status : String
deriving DecidableEq

structure PhysicalVolume where
  id : String
  group : String
  pvType : String
  path : String
  size : Int
deriving DecidableEq

structure VolumeGroup where
  id : String
  name : String
deriving DecidableEq

/-- The journal metadata carried by an existing OSD record (osds.JournalInfo):
an optional journal location identifier and the journal size in gibibytes. -/
structure JournalStatus where
  location : Option String
  gib : Int
deriving DecidableEq

structure OSD where
  id : String
  function : String
  path : String
  diskID : String
  journalInfo : JournalStatus
deriving DecidableEq

structure CephMonitor where
  hostUUID : String
  size : Int
deriving DecidableEq

structure FileSystem where
  id : String
  name : String
  size : Int
deriving DecidableEq

structure Cluster where
  id : String
  name : String
  deploymentModel : String
deriving DecidableEq

structure StorageTier where
  id : String
deriving DecidableEq

/-! ## The desired profile (starlingxv1.HostProfileSpec, storage part) -/

structure JournalInfo where
  location : String
  size : Int
deriving DecidableEq

structure OSDInfo where
  function : String
  path : String
  journal : Option JournalInfo
  cluster : Option String
deriving DecidableEq

/-- Modelled from the spec: GetClusterName of starlingxv1.OSDInfo returns the
configured cluster name, defaulting when none is set. -/
def OSDInfo.GetClusterName (o : OSDInfo) : String := o.cluster.getD "ceph_cluster"

structure MonitorInfo where
  size : Option Int
deriving DecidableEq

structure FileSystemInfo where
  name : String
  size : Int
deriving DecidableEq

structure PhysicalVolumeInfo where
  pvType : String
  path : String
  size : Option Int
deriving DecidableEq

structure VolumeGroupInfo where
  name : String
  lvmType : Option String
  physicalVolumes : List PhysicalVolumeInfo
deriving DecidableEq

structure ProfileStorageInfo where
  monitor : Option MonitorInfo
  osds : Option (List OSDInfo)
  volumeGroups : Option (List VolumeGroupInfo)
  fileSystems : Option (List FileSystemInfo)
deriving DecidableEq

structure HostProfileSpec where
  personality : Option String
  storage : Option ProfileStorageInfo
deriving DecidableEq

/-! ## The host snapshot (v1info.HostInfo) -/

structure HostInfo where
  id : String
  personality : String
  disks : List Disk
  partitions : List DiskPartition
  physicalVolumes : List PhysicalVolume
  volumeGroups : List VolumeGroup
  osds : List OSD
  fileSystems : List FileSystem
  clusters : List Cluster
  storageTiers : List (String × StorageTier)
  unlockedAvailable : Bool
  unlockedEnabled : Bool
deriving DecidableEq

/-- Modelled from the spec: disk lookup by device path in the snapshot. -/
def FindDiskByPath (h : HostInfo) (path : String) : Option Disk :=
  h.disks.find? (fun d => d.path == path)

/-- Modelled from the spec: partition lookup matching backing path, size and
owning group. -/
def FindPartitionByPath (h : HostInfo) (path : String) (size : Int)
    (group : String) : Option DiskPartition :=
  h.partitions.find? (fun p => p.path == path && p.size == size && p.group == group)

/-- Modelled from the spec: physical volume lookup matching owning group,
type, backing path and size. -/
def FindPhysicalVolume (h : HostInfo) (group pvType path : String)
    (size : Int) : Option PhysicalVolume :=
  h.physicalVolumes.find?
    (fun v => v.group == group && v.pvType == pvType && v.path == path && v.size == size)

/-- Modelled from the spec: volume group lookup by name in the snapshot. -/
def FindVolumeGroup (h : HostInfo) (name : String) : Option VolumeGroup :=
  h.volumeGroups.find? (fun g => g.name == name)

/-- Modelled from the spec: OSD lookup by backing device path in the snapshot. -/
def FindOSDByPath (h : HostInfo) (path : String) : Option OSD :=
  h.osds.find? (fun o => o.path == path)

/-- Modelled from the spec: cluster lookup by name in the snapshot. -/
def FindClusterByName (h : HostInfo) (name : String) : Option Cluster :=
  h.clusters.find? (fun c => c.name == name)

/-- Modelled from the spec: the storage tier already allocated for a cluster,
if any (the snapshot's StorageTiers map). -/
def LookupStorageTier (h : HostInfo) (clusterName : String) : Option StorageTier :=
  (h.storageTiers.find? (fun t => t.fst == clusterName)).map Prod.snd

/-- Modelled from the spec: whether the host has reached the unlocked/available
operational state. -/
def IsUnlockedAvailable (h : HostInfo) : Bool := h.unlockedAvailable

/-! ## Manager-level environment (system type, monitor count, enablement) -/

inductive SystemType where
  | allInOne
  | standard
  | other
deriving DecidableEq

inductive RequiredState where
  | any
  | enabled
  | disabled
  | none
deriving DecidableEq

structure Config where
  storageEnabled : Bool
  storageMonitorEnabled : Bool
  partitionEnabled : Bool
  physicalVolumeEnabled : Bool
  volumeGroupEnabled : Bool
  osdEnabled : Bool
  fileSystemTypesEnabled : Bool
  fileSystemSizesEnabled : Bool
  systemType : SystemType
  enabledMonitors : Nat
deriving DecidableEq

/-- Modelled from the spec: GetSystemType of the cloud manager reports whether
the deployment is single-combined-node (all-in-one) or multi-node (standard). -/
def GetSystemType (cfg : Config) : SystemType := cfg.systemType

/-- Modelled from the spec: MonitorsEnabled reports whether at least the given
number of Ceph monitors are currently enabled. -/
def MonitorsEnabled (cfg : Config) (required : Nat) : Bool :=
  required ≤ cfg.enabledMonitors

/-! ## Wait descriptors, errors, mutation events -/

/-- The monitor started when a precondition is unmet (the target of a Wait
Descriptor): each constructor is one of the monitor kinds storage.go starts. -/
inductive MonitorKind where
  | partitionState (hostID : String)
  | clusterPresence (clusterName : String)
  | clusterDeploymentModel (clusterID : String)
  | storageMonitorCount (count : Nat)
  | storageTier (clusterID : String) (tierName : String)
  | unlockedAvailableHost (hostID : String)
deriving DecidableEq

/-- The non-success outcomes of a reconciler: a Wait Descriptor (StartMonitor),
a MissingResource error, or an invalid-configuration (user data) error. -/
inductive RErr where
  | waitFor (m : MonitorKind) (msg : String)
  | missing (msg : String)
  | userData (msg : String)
deriving DecidableEq

/-- osds.OSDOpts: every field is a pointer in the Go API. -/
structure OSDOpts where
  hostID : Option String
  diskID : Option String
  function : Option String
  journalLocation : Option String
  journalSize : Option Int
  tierUUID : Option String
deriving DecidableEq

def OSDOpts.empty : OSDOpts :=
  { hostID := Option.none, diskID := Option.none, function := Option.none,
    journalLocation := Option.none, journalSize := Option.none, tierUUID := Option.none }

structure FileSystemOpts where
  name : String
  size : Int
deriving DecidableEq

/-- Every remote mutation the reconcilers can issue, in the order issued.
`deleteCephMonitor` is part of the modelled API surface; storage.go never
issues it (the remote API offers no monitor-only deletion). -/
inductive Event where
  | createPartition (hostID diskID : String) (size : Int)
  | createVolumeGroup (hostID name : String) (lvmType : Option String)
  | createPhysicalVolume (hostID deviceID volumeGroupID pvType : String)
  | createOSD (opts : OSDOpts)
  | updateOSD (id : String) (opts : OSDOpts)
  | deleteOSD (id : String)
  | createCephMonitor (hostUUID : String) (size : Option Int)
  | updateCephMonitor (hostUUID : String) (size : Option Int)
  | deleteCephMonitor (hostUUID : String)
  | createFileSystem (hostUUID name : String) (size : Int)
  | deleteFileSystem (id : String)
  | updateFileSystemSizes (hostUUID : String) (updates : List FileSystemOpts)
deriving DecidableEq

/-! ## The remote system (authoritative state behind the inventory client) -/

/-- Modelled from the spec: the remote inventory service's state for this
host.  List calls return these lists; create calls assign fresh identifiers
from `nextID`; `systemPartitions` are the system-auto-created bookkeeping
partitions folded into the snapshot on refresh; `partitionCreateStatus` is
the status the service reports for a freshly created partition. -/
structure Sys where
  partitions : List DiskPartition
  systemPartitions : List DiskPartition
  partitionCreateStatus : String
  volumeGroups : List VolumeGroup
  physicalVolumes : List PhysicalVolume
  osds : List OSD
  monitors : List CephMonitor
  fileSystems : List FileSystem
  nextID : Nat
deriving DecidableEq

/-- Modelled from the spec: identifiers are opaque and assigned by the remote
system; the n-th assigned identifier. -/
def mkID (n : Nat) : String := "uuid-" ++ toString n

/-- Modelled from the spec: partitions.Create.  The service records the
backing disk's device path on the new partition and reports it with the
service-chosen creation status; the group association is not yet set. -/
def sysCreatePartition (sys : Sys) (_hostID diskID : String) (size : Int)
    (path : String) : Sys × DiskPartition :=
  let p : DiskPartition :=
    { id := mkID sys.nextID, path := path, size := size, group := "",
      status := sys.partitionCreateStatus }
  let _ := diskID
  ({ sys with partitions := sys.partitions ++ [p], nextID := sys.nextID + 1 }, p)

/-- Modelled from the spec: volumegroups.Create. -/
def sysCreateVolumeGroup (sys : Sys) (_hostID name : String)
    (_lvmType : Option String) : Sys × VolumeGroup :=
  let g : VolumeGroup := { id := mkID sys.nextID, name := name }
  ({ sys with volumeGroups := sys.volumeGroups ++ [g], nextID := sys.nextID + 1 }, g)

/-- Modelled from the spec: physicalvolumes.Create.  The service derives the
record's group name, backing path and size from the device and group. -/
def sysCreatePhysicalVolume (sys : Sys) (_hostID _deviceID _vgID pvType : String)
    (groupName path : String) (size : Int) : Sys × PhysicalVolume :=
  let v : PhysicalVolume :=
    { id := mkID sys.nextID, group := groupName, pvType := pvType,
      path := path, size := size }
  ({ sys with physicalVolumes := sys.physicalVolumes ++ [v], nextID := sys.nextID + 1 }, v)

/-- Modelled from the spec: osds.Create.  The service records the backing
disk's device path on the new OSD record. -/
def sysCreateOSD (sys : Sys) (opts : OSDOpts) (path : String) : Sys × OSD :=
  let o : OSD :=
    { id := mkID sys.nextID, function := opts.function.getD "",
      path := path, diskID := opts.diskID.getD "",
      journalInfo := { location := opts.journalLocation, gib := opts.journalSize.getD 0 } }
  ({ sys with osds := sys.osds ++ [o], nextID := sys.nextID + 1 }, o)

/-- Modelled from the spec: osds.Update applies the journal fields given in
the options to the record with the given identifier. -/
def sysUpdateOSD (sys : Sys) (id : String) (opts : OSDOpts) : Sys :=
  { sys with osds := sys.osds.map (fun o =>
      if o.id == id then
        { o with journalInfo :=
            { location := match opts.journalLocation with
                | Option.some l => Option.some l
                | Option.none => o.journalInfo.location,
              gib := opts.journalSize.getD o.journalInfo.gib } }
      else o) }

/-- Modelled from the spec: osds.Delete removes the record with the identifier. -/
def sysDeleteOSD (sys : Sys) (id : String) : Sys :=
  { sys with osds := sys.osds.filter (fun o => o.id != id) }

/-- Modelled from the spec: cephmonitors.Create. -/
def sysCreateCephMonitor (sys : Sys) (hostUUID : String) (size : Option Int) : Sys :=
  let m : CephMonitor := { hostUUID := hostUUID, size := size.getD 0 }
  { sys with monitors := sys.monitors ++ [m] }

/-- Modelled from the spec: cephmonitors.Update resizes the monitor(s) of the
given host. -/
def sysUpdateCephMonitor (sys : Sys) (hostUUID : String) (size : Option Int) : Sys :=
  { sys with monitors := sys.monitors.map (fun m =>
      if m.hostUUID == hostUUID then { m with size := size.getD m.size } else m) }

/-- Modelled from the spec: hostFilesystems.Create. -/
def sysCreateFileSystem (sys : Sys) (name : String) (size : Int) : Sys × FileSystem :=
  let f : FileSystem := { id := mkID sys.nextID, name := name, size := size }
  ({ sys with fileSystems := sys.fileSystems ++ [f], nextID := sys.nextID + 1 }, f)

/-- Modelled from the spec: hostFilesystems.Delete removes by identifier. -/
def sysDeleteFileSystem (sys : Sys) (id : String) : Sys :=
  { sys with fileSystems := sys.fileSystems.filter (fun f => f.id != id) }

/-- Modelled from the spec: hostFilesystems.Update applies a batch of size
updates by filesystem name. -/
def applyFileSystemUpdate (fss : List FileSystem) (u : FileSystemOpts) : List FileSystem :=
  fss.map (fun f => if f.name == u.name then { f with size := u.size } else f)

def sysUpdateFileSystems (sys : Sys) (updates : List FileSystemOpts) : Sys :=
  { sys with fileSystems := updates.foldl applyFileSystemUpdate sys.fileSystems }

/-! ## Reconciliation state: remote state, snapshot, event trace -/

structure RState where
  sys : Sys
  host : HostInfo
  trace : List Event
deriving DecidableEq

/-! ## The reconcilers of storage.go -/

/-- Monitor update loop of ReconcileMonitor: for every listed monitor of this
host whose size differs from a specified desired size, issue an in-place
update (cephmonitors.Update is keyed by host). -/
def monitorUpdateLoop (hostID : String) (desired : Option Int)
    (monitors : List CephMonitor) (s : RState) : RState :=
  match monitors with
  | [] => s
  | m :: rest =>
    if m.hostUUID == hostID then
      match desired with
      | Option.some sz =>
        if sz ≠ m.size then
          let sys1 := sysUpdateCephMonitor s.sys hostID desired
          monitorUpdateLoop hostID desired rest
            { s with sys := sys1, trace := s.trace ++ [Event.updateCephMonitor hostID desired] }
        else monitorUpdateLoop hostID desired rest s
      | Option.none => monitorUpdateLoop hostID desired rest s
    else monitorUpdateLoop hostID desired rest s

/-- ReconcileMonitor: reconciles the Ceph monitor of a worker host.  A stale
monitor (desired profile specifies none) is logged and retained; an existing
monitor with a differing specified size is updated; a monitor is created only
when none exists for the host. -/
def ReconcileMonitor (cfg : Config) (personality : Option String)
    (storage : ProfileStorageInfo) (s : RState) : RState × Option RErr :=
  if !cfg.storageMonitorEnabled then (s, Option.none)
  else if personality ≠ Option.some PersonalityWorker then (s, Option.none)
  else
    let monitors := s.sys.monitors
    match storage.monitor with
    | Option.none => (s, Option.none)
    | Option.some mon =>
      let s1 := monitorUpdateLoop s.host.id mon.size monitors s
      let found := monitors.any (fun m => m.hostUUID == s.host.id)
      if !found then
        let sys1 := sysCreateCephMonitor s1.sys s.host.id mon.size
        ({ s1 with
            sys := sys1
            trace := s1.trace ++ [Event.createCephMonitor s.host.id mon.size] }, Option.none)
      else (s1, Option.none)

/-- Provisioning loop of ReconcilePartitions over the group's desired physical
volumes: entries that are not of partition type or carry no size are skipped,
matched partitions are left alone, a missing backing disk is a MissingResource
error, otherwise a partition is created. -/
def partitionsLoop (groupName : String) (entries : List PhysicalVolumeInfo)
    (updated : Bool) (s : RState) : (RState × Bool) × Option RErr :=
  match entries with
  | [] => ((s, updated), Option.none)
  | e :: rest =>
    if e.pvType ≠ PVTypePartition || e.size.isNone then
      partitionsLoop groupName rest updated s
    else
      let size := e.size.getD 0
      match FindPartitionByPath s.host e.path size groupName with
      | Option.some _ => partitionsLoop groupName rest updated s
      | Option.none =>
        match FindDiskByPath s.host e.path with
        | Option.none =>
          ((s, updated), Option.some (RErr.missing ("failed to find disk for path " ++ e.path)))
        | Option.some disk =>
          let (sys1, _) := sysCreatePartition s.sys s.host.id disk.id size e.path
          let s1 := { s with
            sys := sys1
            trace := s.trace ++ [Event.createPartition s.host.id disk.id size] }
          partitionsLoop groupName rest true s1

/-- A partition in a transient status (creating, modifying or deleting). -/
def transientPartition (p : DiskPartition) : Bool :=
  p.status == StatusDeleting || p.status == StatusModifying || p.status == StatusCreating

/-- ReconcilePartitions: ensures the partitions backing the group's desired
partition-type physical volumes exist; after any creation the partition list
is refreshed (system-created partitions folded in); if any partition in the
snapshot is in a transient status a partition-state Wait is returned. -/
def ReconcilePartitions (cfg : Config) (group : VolumeGroupInfo)
    (s : RState) : RState × Option RErr :=
  if !cfg.partitionEnabled then (s, Option.none)
  else
    match partitionsLoop group.name group.physicalVolumes false s with
    | ((s1, _), Option.some e) => (s1, Option.some e)
    | ((s1, updated), Option.none) =>
      let s2 := if updated then
          { s1 with host :=
            { s1.host with partitions := s1.sys.partitions ++ s1.sys.systemPartitions } }
        else s1
      if s2.host.partitions.any transientPartition then
        (s2, Option.some (RErr.waitFor (MonitorKind.partitionState s2.host.id)
          "waiting for partitions to transition to ready state"))
      else (s2, Option.none)

/-- Creation loop of ReconcilePhysicalVolumes over the group's desired
physical volumes: already-present volumes are skipped, an unresolvable device
is a MissingResource error, otherwise the volume is created. -/
def physicalVolumesLoop (vgID : String) (group : VolumeGroupInfo)
    (entries : List PhysicalVolumeInfo) (updated : Bool)
    (s : RState) : (RState × Bool) × Option RErr :=
  match entries with
  | [] => ((s, updated), Option.none)
  | e :: rest =>
    let size := e.size.getD 0
    match FindPhysicalVolume s.host group.name e.pvType e.path size with
    | Option.some _ => physicalVolumesLoop vgID group rest updated s
    | Option.none =>
      let deviceID :=
        if e.pvType == PVTypePartition then
          match FindPartitionByPath s.host e.path size group.name with
          | Option.some p => p.id
          | Option.none => ""
        else
          match FindDiskByPath s.host e.path with
          | Option.some d => d.id
          | Option.none => ""
      if deviceID == "" then
        ((s, updated), Option.some (RErr.missing
          ("failed to find physical volume device: " ++ e.path ++ "(" ++ e.pvType ++ ")")))
      else
        let (sys1, _) := sysCreatePhysicalVolume s.sys s.host.id deviceID vgID e.pvType
          group.name e.path size
        let s1 := { s with
          sys := sys1
          trace := s.trace ++ [Event.createPhysicalVolume s.host.id deviceID vgID e.pvType] }
        physicalVolumesLoop vgID group rest true s1

/-- ReconcilePhysicalVolumes: resolves the owning volume group (MissingResource
if absent), reconciles partitions first, then creates each missing physical
volume, refreshing the physical volume list once if any creation occurred. -/
def ReconcilePhysicalVolumes (cfg : Config) (group : VolumeGroupInfo)
    (s : RState) : RState × Option RErr :=
  if !cfg.physicalVolumeEnabled then (s, Option.none)
  else
    match FindVolumeGroup s.host group.name with
    | Option.none =>
      (s, Option.some (RErr.missing ("unable to find volume group " ++ group.name)))
    | Option.some vg =>
      match ReconcilePartitions cfg group s with
      | (s1, Option.some e) => (s1, Option.some e)
      | (s1, Option.none) =>
        match physicalVolumesLoop vg.id group group.physicalVolumes false s1 with
        | ((s2, _), Option.some e) => (s2, Option.some e)
        | ((s2, updated), Option.none) =>
          if updated then
            ({ s2 with host :=
               { s2.host with physicalVolumes := s2.sys.physicalVolumes } }, Option.none)
          else (s2, Option.none)

/-- Create-by-name loop of ReconcileVolumeGroups. -/
def volumeGroupCreateLoop (vgs : List VolumeGroupInfo) (updated : Bool)
    (s : RState) : RState × Bool :=
  match vgs with
  | [] => (s, updated)
  | vgInfo :: rest =>
    match FindVolumeGroup s.host vgInfo.name with
    | Option.some _ => volumeGroupCreateLoop rest updated s
    | Option.none =>
      let (sys1, _) := sysCreateVolumeGroup s.sys s.host.id vgInfo.name vgInfo.lvmType
      volumeGroupCreateLoop rest true
        { s with
          sys := sys1
          trace := s.trace ++ [Event.createVolumeGroup s.host.id vgInfo.name vgInfo.lvmType] }

/-- Per-group physical-volume loop of ReconcileVolumeGroups. -/
def volumeGroupPVLoop (cfg : Config) (vgs : List VolumeGroupInfo)
    (s : RState) : RState × Option RErr :=
  match vgs with
  | [] => (s, Option.none)
  | vgInfo :: rest =>
    match ReconcilePhysicalVolumes cfg vgInfo s with
    | (s1, Option.some e) => (s1, Option.some e)
    | (s1, Option.none) => volumeGroupPVLoop cfg rest s1

/-- ReconcileVolumeGroups: creates each desired volume group absent from the
snapshot, refreshes the group list once if any creation occurred, then
reconciles the physical volumes of every desired group. -/
def ReconcileVolumeGroups (cfg : Config) (storage : ProfileStorageInfo)
    (s : RState) : RState × Option RErr :=
  match storage.volumeGroups with
  | Option.none => (s, Option.none)
  | Option.some vgs =>
    if !cfg.volumeGroupEnabled then (s, Option.none)
    else
      let (s1, updated) := volumeGroupCreateLoop vgs false s
      let s2 := if updated then
          { s1 with host := { s1.host with volumeGroups := s1.sys.volumeGroups } }
        else s1
      volumeGroupPVLoop cfg vgs s2

/-- OSDProvisioningState: at what host state the system permits OSD resources
to be added, as a pure function of system type and host personality. -/
def OSDProvisioningState (cfg : Config) (personality : String) : RequiredState :=
  match GetSystemType cfg with
  | SystemType.allInOne => RequiredState.any
  | SystemType.standard =>
    if EqualFold personality PersonalityStorage then RequiredState.disabled
    else RequiredState.enabled
  | SystemType.other => RequiredState.none

/-- OSDProvisioningAllowed: the admission gate consulted before an OSD is
created; returns the first unmet condition's Wait, or none when creation may
proceed.  The model/monitor checks mirror the nested conditionals of the Go
source: the monitor count is examined only inside the branch for a defined
model that places storage on storage or controller nodes, and only on a
standard system; the tier check follows for every branch that fell through. -/
def OSDProvisioningAllowed (cfg : Config) (osdInfo : OSDInfo)
    (tierUUID : Option String) (host : HostInfo) : Option RErr :=
  let clusterName := osdInfo.GetClusterName
  match FindClusterByName host clusterName with
  | Option.none =>
    Option.some (RErr.waitFor (MonitorKind.clusterPresence clusterName)
      ("waiting for the \"" ++ clusterName ++ "\" cluster to be created before allowing OSDs"))
  | Option.some cluster =>
    let modelCheck : Option RErr :=
      if cluster.deploymentModel == DeploymentModelUndefined then
        Option.some (RErr.waitFor (MonitorKind.clusterDeploymentModel cluster.id)
          "waiting for storage deployment model to be defined before allowing OSDs")
      else if cluster.deploymentModel == DeploymentModelStorage ||
              cluster.deploymentModel == DeploymentModelController then
        (if GetSystemType cfg == SystemType.standard then
          (if !(MonitorsEnabled cfg OSDMinimumMonitorCount) then
            Option.some (RErr.waitFor (MonitorKind.storageMonitorCount OSDMinimumMonitorCount)
              ("waiting for " ++ toString OSDMinimumMonitorCount ++
               " monitor(s) to be enabled before allowing OSDs"))
           else Option.none)
         else Option.none)
      else Option.none
    match modelCheck with
    | Option.some e => Option.some e
    | Option.none =>
      if tierUUID.isNone then
        Option.some (RErr.waitFor (MonitorKind.storageTier cluster.id StorageTierName)
          ("waiting for the \"" ++ clusterName ++ "\" " ++ StorageTierName ++
           " tier to be created"))
      else Option.none

/-- The tier lookup at the end of buildOSDOpts: the options carry the tier's
identifier when the cluster's storage tier is already allocated. -/
def setTierUUID (host : HostInfo) (osdInfo : OSDInfo) (opts : OSDOpts) : OSDOpts :=
  match LookupStorageTier host osdInfo.GetClusterName with
  | Option.some tier => { opts with tierUUID := Option.some tier.id }
  | Option.none => opts

/-- buildOSDOpts: constructs the OSD creation request.  MissingResource when
the backing disk, or a referenced journal OSD, cannot be found; a user-data
error when the referenced OSD is not of journal function. -/
def buildOSDOpts (host : HostInfo) (osdInfo : OSDInfo) : Except RErr OSDOpts :=
  match FindDiskByPath host osdInfo.path with
  | Option.none =>
    Except.error (RErr.missing ("unable to find disk for path: " ++ osdInfo.path))
  | Option.some disk =>
    let opts : OSDOpts :=
      { hostID := Option.some host.id, diskID := Option.some disk.id,
        function := Option.some osdInfo.function, journalLocation := Option.none,
        journalSize := Option.none, tierUUID := Option.none }
    match osdInfo.journal with
    | Option.none => Except.ok (setTierUUID host osdInfo opts)
    | Option.some j =>
      match FindOSDByPath host j.location with
      | Option.none =>
        Except.error (RErr.missing ("unable to find journal OSD with path: " ++ j.location))
      | Option.some journal =>
        if journal.function ≠ FunctionJournal then
          Except.error (RErr.userData ("OSD on disk " ++ journal.diskID ++ " is not a Journal OSD"))
        else
          Except.ok (setTierUUID host osdInfo
            { opts with journalLocation := Option.some journal.id,
                        journalSize := Option.some j.size })

/-- osdUpdateRequired: the in-place update (journal presence or size only)
needed to bring an existing OSD record to the desired configuration. -/
def osdUpdateRequired (osdInfo : OSDInfo) (osd : OSD) : OSDOpts × Bool :=
  match osdInfo.journal with
  | Option.none => (OSDOpts.empty, false)
  | Option.some j =>
    match osd.journalInfo.location with
    | Option.none =>
      ({ OSDOpts.empty with journalLocation := Option.some j.location,
                            journalSize := Option.some j.size }, true)
    | Option.some _ =>
      if osd.journalInfo.gib ≠ j.size then
        ({ OSDOpts.empty with journalSize := Option.some j.size }, true)
      else (OSDOpts.empty, false)

/-- Per-entry loop of ReconcileOSDsByType: entries of another function are
skipped; an existing record is updated in place when required; a missing one
is created after building its options and passing the admission gate. -/
def reconcileOSDLoop (cfg : Config) (fn : String) (infos : List OSDInfo)
    (updated : Bool) (s : RState) : (RState × Bool) × Option RErr :=
  match infos with
  | [] => ((s, updated), Option.none)
  | osdInfo :: rest =>
    if osdInfo.function ≠ fn then reconcileOSDLoop cfg fn rest updated s
    else
      match FindOSDByPath s.host osdInfo.path with
      | Option.some osd =>
        let (opts, need) := osdUpdateRequired osdInfo osd
        if need then
          let sys1 := sysUpdateOSD s.sys osd.id opts
          reconcileOSDLoop cfg fn rest true
            { s with
              sys := sys1
              trace := s.trace ++ [Event.updateOSD osd.id opts] }
        else reconcileOSDLoop cfg fn rest updated s
      | Option.none =>
        match buildOSDOpts s.host osdInfo with
        | Except.error e => ((s, updated), Option.some e)
        | Except.ok opts =>
          match OSDProvisioningAllowed cfg osdInfo opts.tierUUID s.host with
          | Option.some e => ((s, updated), Option.some e)
          | Option.none =>
            let (sys1, _) := sysCreateOSD s.sys opts osdInfo.path
            reconcileOSDLoop cfg fn rest true
              { s with
                sys := sys1
                trace := s.trace ++ [Event.createOSD opts] }

/-- ReconcileOSDsByType: reconciles the desired OSDs of one function,
refreshing the OSD list once if any change occurred. -/
def ReconcileOSDsByType (cfg : Config) (infos : List OSDInfo) (fn : String)
    (s : RState) : RState × Option RErr :=
  match reconcileOSDLoop cfg fn infos false s with
  | ((s1, _), Option.some e) => (s1, Option.some e)
  | ((s1, updated), Option.none) =>
    if updated then
      ({ s1 with host := { s1.host with osds := s1.sys.osds } }, Option.none)
    else (s1, Option.none)

/-- ReconcileOSDs: the combined OSD reconciler.  Journal OSDs must be added
before regular OSDs since regular OSDs reference journal OSDs by UUID. -/
def ReconcileOSDs (cfg : Config) (storage : ProfileStorageInfo)
    (s : RState) : RState × Option RErr :=
  match storage.osds with
  | Option.none => (s, Option.none)
  | Option.some infos =>
    if !cfg.osdEnabled then (s, Option.none)
    else if infos.length == 0 then (s, Option.none)
    else
      match ReconcileOSDsByType cfg infos FunctionJournal s with
      | (s1, Option.some e) => (s1, Option.some e)
      | (s1, Option.none) => ReconcileOSDsByType cfg infos FunctionOSD s1

/-- The identifiers of the existing OSD records still matched (by backing
path) to a desired entry: the `present` set of ReconcileStaleOSDs. -/
def stalePresent (host : HostInfo) (infos : List OSDInfo) : List String :=
  infos.filterMap (fun o => (FindOSDByPath host o.path).map OSD.id)

/-- The identifiers of matched records flagged for recreation: the desired
function differs, or the desired entry dropped its journal while the record
still carries a journal location that is not the record's own identifier. -/
def staleFlagged (host : HostInfo) (infos : List OSDInfo) : List String :=
  infos.filterMap (fun o =>
    match FindOSDByPath host o.path with
    | Option.none => Option.none
    | Option.some osd =>
      if osd.function ≠ o.function then Option.some osd.id
      else
        match o.journal, osd.journalInfo.location with
        | Option.none, Option.some loc =>
          if loc ≠ osd.id then Option.some osd.id else Option.none
        | _, _ => Option.none)

/-- Deletion loop of ReconcileStaleOSDs over the snapshot's OSD records. -/
def staleDeleteLoop (present flagged : List String) (osdsList : List OSD)
    (changes : Bool) (s : RState) : RState × Bool :=
  match osdsList with
  | [] => (s, changes)
  | osd :: rest =>
    if !(present.contains osd.id) || flagged.contains osd.id then
      let sys1 := sysDeleteOSD s.sys osd.id
      staleDeleteLoop present flagged rest true
        { s with
          sys := sys1
          trace := s.trace ++ [Event.deleteOSD osd.id] }
    else staleDeleteLoop present flagged rest changes s

/-- ReconcileStaleOSDs: deletes every existing OSD record that is no longer
desired or is flagged for recreation, refreshing the OSD list if any deletion
occurred. -/
def ReconcileStaleOSDs (cfg : Config) (storage : ProfileStorageInfo)
    (s : RState) : RState × Option RErr :=
  match storage.osds with
  | Option.none => (s, Option.none)
  | Option.some infos =>
    if !cfg.osdEnabled then (s, Option.none)
    else
      let present := stalePresent s.host infos
      let flagged := staleFlagged s.host infos
      let (s1, changes) := staleDeleteLoop present flagged s.host.osds false s
      if changes then
        ({ s1 with host := { s1.host with osds := s1.sys.osds } }, Option.none)
      else (s1, Option.none)

/-! ## Filesystem reconcilers -/

/-- Modelled from the spec: common.ListDelta.  Given the current and the
configured name sequences, returns (added, removed, unchanged): names present
in configured but not current, names present in current but not configured,
and the intersection. -/
def ListDelta (current configured : List String) :
    List String × List String × List String :=
  (configured.filter (fun x => !(current.contains x)),
   current.filter (fun x => !(configured.contains x)),
   current.filter (fun x => configured.contains x))

/-- Modelled from the spec: the allow-list of filesystem kinds that may be
created automatically. -/
def FileSystemCreationAllowed : List String := ["instances", "image-conversion", "ceph"]

/-- Modelled from the spec: the allow-list of filesystem kinds that may be
removed automatically. -/
def FileSystemDeletionAllowed : List String := ["instances", "image-conversion", "ceph"]

/-- Inner loop of DeleteFileSystems: delete every host filesystem with the
given name, refreshing the snapshot after each removal. -/
def deleteFileSystemsInner (name : String) (fss : List FileSystem)
    (updated : Bool) (s : RState) : RState × Bool :=
  match fss with
  | [] => (s, updated)
  | fs :: rest =>
    if name == fs.name then
      let sys1 := sysDeleteFileSystem s.sys fs.id
      deleteFileSystemsInner name rest true
        { s with
          sys := sys1
          host := { s.host with fileSystems := sys1.fileSystems }
          trace := s.trace ++ [Event.deleteFileSystem fs.id] }
    else deleteFileSystemsInner name rest updated s

/-- DeleteFileSystems: removes the filesystems of the removed name set. -/
def DeleteFileSystems (removed : List String) (s : RState)
    (updated : Bool) : RState × Bool :=
  match removed with
  | [] => (s, updated)
  | name :: rest =>
    let (s1, u1) := deleteFileSystemsInner name s.host.fileSystems updated s
    DeleteFileSystems rest s1 u1

/-- Inner loop of CreateFileSystems: create every desired filesystem with the
given name, refreshing the snapshot after each creation. -/
def createFileSystemsInner (name : String) (infos : List FileSystemInfo)
    (hostID : String) (updated : Bool) (s : RState) : RState × Bool :=
  match infos with
  | [] => (s, updated)
  | fs :: rest =>
    if name == fs.name then
      let (sys1, _) := sysCreateFileSystem s.sys fs.name fs.size
      createFileSystemsInner name rest hostID true
        { s with
          sys := sys1
          host := { s.host with fileSystems := sys1.fileSystems }
          trace := s.trace ++ [Event.createFileSystem hostID fs.name fs.size] }
    else createFileSystemsInner name rest hostID updated s

/-- CreateFileSystems: creates the filesystems of the added name set. -/
def CreateFileSystems (added : List String) (infos : List FileSystemInfo)
    (s : RState) (updated : Bool) : RState × Bool :=
  match added with
  | [] => (s, updated)
  | name :: rest =>
    let (s1, u1) := createFileSystemsInner name infos s.host.id updated s
    CreateFileSystems rest infos s1 u1

/-- ReconcileFileSystemTypes: deltas the desired filesystem names against the
current ones, restricts both sets to the allow-lists, deletes then creates. -/
def ReconcileFileSystemTypes (cfg : Config) (storage : ProfileStorageInfo)
    (s : RState) : RState × Option RErr :=
  match storage.fileSystems with
  | Option.none => (s, Option.none)
  | Option.some infos =>
    if !cfg.fileSystemTypesEnabled then (s, Option.none)
    else if infos.length == 0 then (s, Option.none)
    else
      let configured := infos.map FileSystemInfo.name
      let current := s.host.fileSystems.map FileSystem.name
      let (added, removed, _) := ListDelta current configured
      let (_, _, fsToAdd) := ListDelta added FileSystemCreationAllowed
      let (_, _, fsToRemove) := ListDelta removed FileSystemDeletionAllowed
      let (s1, _) := if fsToRemove.length > 0 then DeleteFileSystems fsToRemove s false
        else (s, false)
      let (s2, _) := if fsToAdd.length > 0 then CreateFileSystems fsToAdd infos s1 false
        else (s1, false)
      (s2, Option.none)

/-- Per-desired-filesystem loop of ReconcileFileSystemSizes: collects one
update option per host filesystem whose desired size strictly exceeds its
current size; a desired name with no host filesystem is MissingResource. -/
def fsSizesLoop (infos : List FileSystemInfo) (hostFS : List FileSystem)
    (updates : List FileSystemOpts) : Except RErr (List FileSystemOpts) :=
  match infos with
  | [] => Except.ok updates
  | fsInfo :: rest =>
    let found := hostFS.any (fun fs => fs.name == fsInfo.name)
    let adds := hostFS.filterMap (fun fs =>
      if fs.name == fsInfo.name then
        (if fsInfo.size > fs.size then
          Option.some ({ name := fsInfo.name, size := fsInfo.size } : FileSystemOpts)
         else Option.none)
      else Option.none)
    if !found then
      Except.error (RErr.missing ("unknown host filesystem \"" ++ fsInfo.name ++ "\""))
    else fsSizesLoop rest hostFS (updates ++ adds)

/-- ReconcileFileSystemSizes: waits until the host is unlocked/available,
then grows (never shrinks) the desired filesystems in one batched update. -/
def ReconcileFileSystemSizes (cfg : Config) (storage : ProfileStorageInfo)
    (s : RState) : RState × Option RErr :=
  match storage.fileSystems with
  | Option.none => (s, Option.none)
  | Option.some infos =>
    if !cfg.fileSystemSizesEnabled then (s, Option.none)
    else if infos.length == 0 then (s, Option.none)
    else if !(IsUnlockedAvailable s.host) then
      (s, Option.some (RErr.waitFor (MonitorKind.unlockedAvailableHost s.host.id)
        "waiting for host to reach available state"))
    else
      match fsSizesLoop infos s.host.fileSystems [] with
      | Except.error e => (s, Option.some e)
      | Except.ok updates =>
        if updates.length > 0 then
          let sys1 := sysUpdateFileSystems s.sys updates
          ({ s with
             sys := sys1
             trace := s.trace ++ [Event.updateFileSystemSizes s.host.id updates] },
           Option.none)
        else (s, Option.none)

/-! ## The top-level storage orchestrator -/

/-- ReconcileStorage: Monitor, then FileSystem types, then Volume Groups,
then Stale OSDs, then (when the provisioning-state classifier returns
Disabled or Any) OSDs, returning at the first wait or error. -/
def ReconcileStorage (cfg : Config) (profile : HostProfileSpec)
    (s : RState) : RState × Option RErr :=
  if !cfg.storageEnabled then (s, Option.none)
  else
    match profile.storage with
    | Option.none => (s, Option.none)
    | Option.some storage =>
      match ReconcileMonitor cfg profile.personality storage s with
      | (s1, Option.some e) => (s1, Option.some e)
      | (s1, Option.none) =>
        match ReconcileFileSystemTypes cfg storage s1 with
        | (s2, Option.some e) => (s2, Option.some e)
        | (s2, Option.none) =>
          match ReconcileVolumeGroups cfg storage s2 with
          | (s3, Option.some e) => (s3, Option.some e)
          | (s3, Option.none) =>
            match ReconcileStaleOSDs cfg storage s3 with
            | (s4, Option.some e) => (s4, Option.some e)
            | (s4, Option.none) =>
              match OSDProvisioningState cfg s4.host.personality with
              | RequiredState.disabled => ReconcileOSDs cfg storage s4
              | RequiredState.any => ReconcileOSDs cfg storage s4
              | _ => (s4, Option.none)

/-! ## Spec-side definitions and fixtures -/

/-- Written from the spec: whether the deployment model assigns storage
duties (the storage-nodes or controller-nodes model). -/
def DeploymentModelAssignsStorage (model : String) : Bool :=
  model == DeploymentModelStorage || model == DeploymentModelController

/-- Written from the claim (C3): the admission gate as an ordered decision
list with four distinct Wait Descriptors: cluster absent, deployment model
undefined, multi-node system with a storage-duty model and too few enabled
monitors, tier unallocated. -/
def OSDGateSpec (cfg : Config) (osdInfo : OSDInfo) (tierUUID : Option String)
    (host : HostInfo) : Option RErr :=
  let clusterName := osdInfo.GetClusterName
  match FindClusterByName host clusterName with
  | Option.none =>
    Option.some (RErr.waitFor (MonitorKind.clusterPresence clusterName)
      ("waiting for the \"" ++ clusterName ++ "\" cluster to be created before allowing OSDs"))
  | Option.some cluster =>
    if cluster.deploymentModel == DeploymentModelUndefined then
      Option.some (RErr.waitFor (MonitorKind.clusterDeploymentModel cluster.id)
        "waiting for storage deployment model to be defined before allowing OSDs")
    else if GetSystemType cfg == SystemType.standard &&
            DeploymentModelAssignsStorage cluster.deploymentModel &&
            !(MonitorsEnabled cfg OSDMinimumMonitorCount) then
      Option.some (RErr.waitFor (MonitorKind.storageMonitorCount OSDMinimumMonitorCount)
        ("waiting for " ++ toString OSDMinimumMonitorCount ++
         " monitor(s) to be enabled before allowing OSDs"))
    else if tierUUID.isNone then
      Option.some (RErr.waitFor (MonitorKind.storageTier cluster.id StorageTierName)
        ("waiting for the \"" ++ clusterName ++ "\" " ++ StorageTierName ++
         " tier to be created"))
    else Option.none

/-- Modelled from the spec: whether the host's current power/lock condition
satisfies a required provisioning state (Any at every state, Enabled when the
host is unlocked/enabled, Disabled when it is locked/disabled, None never). -/
def RequiredStateSatisfied (host : HostInfo) : RequiredState → Bool
  | RequiredState.any => true
  | RequiredState.enabled => host.unlockedEnabled
  | RequiredState.disabled => !host.unlockedEnabled
  | RequiredState.none => false

/-- A configuration with every reconciler enabled on a standard system with
enough enabled monitors. -/
def allOn : Config :=
  { storageEnabled := true, storageMonitorEnabled := true, partitionEnabled := true,
    physicalVolumeEnabled := true, volumeGroupEnabled := true, osdEnabled := true,
    fileSystemTypesEnabled := true, fileSystemSizesEnabled := true,
    systemType := SystemType.standard, enabledMonitors := 3 }

/-- An unlocked, enabled controller host with an allocated ceph cluster,
deployment model and storage tier, one unpartitioned disk and no OSDs. -/
def exHost : HostInfo :=
  { id := "host-0", personality := PersonalityController,
    disks := [{ id := "disk-0", path := "/dev/sdb" }],
    partitions := [], physicalVolumes := [], volumeGroups := [], osds := [],
    fileSystems := [],
    clusters := [{ id := "cluster-0", name := "ceph_cluster",
                   deploymentModel := DeploymentModelController }],
    storageTiers := [("ceph_cluster", { id := "tier-0" })],
    unlockedAvailable := true, unlockedEnabled := true }

/-- A remote-system state agreeing with `exHost`. -/
def exSys : Sys :=
  { partitions := [], systemPartitions := [], partitionCreateStatus := StatusCreating,
    volumeGroups := [], physicalVolumes := [], osds := [], monitors := [],
    fileSystems := [], nextID := 0 }

def exState : RState := { sys := exSys, host := exHost, trace := [] }

/-- One desired data OSD on the example host's disk. -/
def exOSDInfo : OSDInfo :=
  { function := FunctionOSD, path := "/dev/sdb", journal := Option.none,
    cluster := Option.none }

/-- A desired storage profile holding exactly the one example OSD. -/
def exStorage : ProfileStorageInfo :=
  { monitor := Option.none, osds := Option.some [exOSDInfo],
    volumeGroups := Option.none, fileSystems := Option.none }

/-- The example profile: a controller host desiring one OSD. -/
def exProfile : HostProfileSpec :=
  { personality := Option.some PersonalityController,
    storage := Option.some exStorage }

/-! ## C1: the provisioning-state classifier -/

/-- C1 counterexample: the claim says every role other than storage and
controller permits no OSD provisioning on a multi-node system, but on a
standard system the classifier returns the Enabled requirement for a worker
host, not the None state. -/
theorem osdProvisioningState_worker_refutes :
    OSDProvisioningState allOn PersonalityWorker = RequiredState.enabled ∧
    RequiredState.enabled ≠ RequiredState.none := by
  refine ⟨by decide, by decide⟩

/-- C1 (amended): OSDProvisioningState is a pure function of system type and
role: all-in-one systems permit OSD provisioning at any state; on standard
systems storage-role hosts (case-insensitively) must be disabled and every
other role must be enabled; the None state is returned exactly when the
system type is neither all-in-one nor standard. -/
theorem osdProvisioningState_characterization (cfg : Config) (p : String) :
    (GetSystemType cfg = SystemType.allInOne →
      OSDProvisioningState cfg p = RequiredState.any) ∧
    (GetSystemType cfg = SystemType.standard → EqualFold p PersonalityStorage = true →
      OSDProvisioningState cfg p = RequiredState.disabled) ∧
    (GetSystemType cfg = SystemType.standard → EqualFold p PersonalityStorage = false →
      OSDProvisioningState cfg p = RequiredState.enabled) ∧
    (GetSystemType cfg = SystemType.other →
      OSDProvisioningState cfg p = RequiredState.none) := by
  unfold OSDProvisioningState
  refine ⟨fun h => by simp [h], fun h hf => by simp [h, hf],
    fun h hf => by simp [h, hf], fun h => by simp [h]⟩

/-! ## C3: the OSD admission gate -/

/-- C3: the admission gate equals the ordered decision list of the claim: it
short-circuits on the first unmet condition, each unmet condition yields its
own distinct Wait Descriptor (never an error), and a fully satisfied gate
returns nothing so creation proceeds. -/
theorem osdProvisioningAllowed_gate_spec (cfg : Config) (osdInfo : OSDInfo)
    (tierUUID : Option String) (host : HostInfo) :
    OSDProvisioningAllowed cfg osdInfo tierUUID host =
      OSDGateSpec cfg osdInfo tierUUID host := by
  simp only [OSDProvisioningAllowed, OSDGateSpec, DeploymentModelAssignsStorage]
  cases hc : FindClusterByName host osdInfo.GetClusterName with
  | none => rfl
  | some cluster =>
    by_cases h1 : cluster.deploymentModel = DeploymentModelUndefined <;>
    by_cases h2 : cluster.deploymentModel = DeploymentModelStorage <;>
    by_cases h3 : cluster.deploymentModel = DeploymentModelController <;>
    by_cases h4 : GetSystemType cfg = SystemType.standard <;>
    by_cases h5 : MonitorsEnabled cfg OSDMinimumMonitorCount = true <;>
    (simp [h1, h2, h3, h4, h5] <;>
      simp_all [DeploymentModelUndefined, DeploymentModelStorage, DeploymentModelController])

/-! ## C8: the Ceph monitor reconciler -/

/-- Whether an event is a Ceph monitor deletion. -/
def isMonitorDeletion : Event → Bool
  | Event.deleteCephMonitor _ => true
  | _ => false

/-- Written from the claim (C8): the in-place updates the monitor reconciler
issues, one per listed monitor of the host whose size differs from the
specified desired size. -/
def monitorSpecUpdates (hostID : String) (desired : Option Int) :
    List CephMonitor → List Event
  | [] => []
  | m :: rest =>
    (if m.hostUUID == hostID then
      match desired with
      | Option.some sz =>
        if sz ≠ m.size then [Event.updateCephMonitor hostID desired] else []
      | Option.none => []
     else []) ++ monitorSpecUpdates hostID desired rest

theorem monitorUpdateLoop_trace (hostID : String) (desired : Option Int)
    (monitors : List CephMonitor) (s : RState) :
    (monitorUpdateLoop hostID desired monitors s).trace
      = s.trace ++ monitorSpecUpdates hostID desired monitors := by
  induction monitors generalizing s with
  | nil => simp [monitorUpdateLoop, monitorSpecUpdates]
  | cons m rest ih =>
    unfold monitorUpdateLoop monitorSpecUpdates
    by_cases h : (m.hostUUID == hostID) = true
    · cases desired with
      | none => simpa [h] using ih s
      | some sz =>
        by_cases hsz : sz = m.size
        · simpa [h, hsz] using ih s
        · simp [h, hsz, ih]
    · simp [Bool.not_eq_true] at h
      simpa [h] using ih s

theorem monitorSpecUpdates_no_deletion (hostID : String) (desired : Option Int)
    (monitors : List CephMonitor) :
    (monitorSpecUpdates hostID desired monitors).countP isMonitorDeletion = 0 := by
  induction monitors with
  | nil => simp [monitorSpecUpdates]
  | cons m rest ih =>
    unfold monitorSpecUpdates
    by_cases h : (m.hostUUID == hostID) = true
    · cases desired with
      | none => simpa [h] using ih
      | some sz =>
        by_cases hsz : sz = m.size
        · simpa [h, hsz] using ih
        · simp [h, hsz, List.countP_cons, isMonitorDeletion, ih]
    · simp [Bool.not_eq_true] at h
      simpa [h] using ih

/-- C8: ReconcileMonitor never issues a monitor deletion, returns no wait or
error for any input, does nothing at all when disabled or on a non-worker
host, leaves everything untouched when no monitor is desired (a stale monitor
is retained unchanged), and otherwise issues exactly the in-place size
updates for existing monitors of the host followed by a creation only when no
monitor exists for the host. -/
theorem reconcileMonitor_never_deletes (cfg : Config) (p : Option String)
    (st : ProfileStorageInfo) (s : RState) :
    (ReconcileMonitor cfg p st s).2 = Option.none ∧
    ((ReconcileMonitor cfg p st s).1.trace.countP isMonitorDeletion
      = s.trace.countP isMonitorDeletion) ∧
    (cfg.storageMonitorEnabled = false → ReconcileMonitor cfg p st s = (s, Option.none)) ∧
    (p ≠ Option.some PersonalityWorker → ReconcileMonitor cfg p st s = (s, Option.none)) ∧
    (st.monitor = Option.none → ReconcileMonitor cfg p st s = (s, Option.none)) ∧
    (∀ mon, st.monitor = Option.some mon → cfg.storageMonitorEnabled = true →
      p = Option.some PersonalityWorker →
      (ReconcileMonitor cfg p st s).1.trace
        = s.trace ++ monitorSpecUpdates s.host.id mon.size s.sys.monitors ++
          (if s.sys.monitors.any (fun m => m.hostUUID == s.host.id) then ([] : List Event)
           else [Event.createCephMonitor s.host.id mon.size])) := by
  unfold ReconcileMonitor
  by_cases hen : cfg.storageMonitorEnabled = true
  · by_cases hp : p = Option.some PersonalityWorker
    · cases hm : st.monitor with
      | none =>
        exact ⟨by simp [hen, hp], by simp [hen, hp], by simp [hen], by simp [hp],
          fun _ => by simp [hen, hp], fun mon h2 => Option.noConfusion h2⟩
      | some mon =>
        have htr := monitorUpdateLoop_trace s.host.id mon.size s.sys.monitors s
        by_cases hfound : (s.sys.monitors.any (fun m => m.hostUUID == s.host.id)) = true
        · refine ⟨by simp [hen, hp, hfound], ?_, by simp [hen], by simp [hp],
            fun hc => Option.noConfusion hc, fun mon2 h2 _ _ => ?_⟩
          · simp [hen, hp, hfound, htr, List.countP_append, monitorSpecUpdates_no_deletion]
          · obtain rfl : mon = mon2 := by injection h2
            simp [hen, hp, hfound, htr]
        · simp only [Bool.not_eq_true] at hfound
          refine ⟨by simp [hen, hp, hfound], ?_, by simp [hen], by simp [hp],
            fun hc => Option.noConfusion hc, fun mon2 h2 _ _ => ?_⟩
          · simp [hen, hp, hfound, htr, List.countP_append,
              monitorSpecUpdates_no_deletion, List.countP_cons, isMonitorDeletion]
          · obtain rfl : mon = mon2 := by injection h2
            simp [hen, hp, hfound, htr]
    · refine ⟨by simp [hen, hp], by simp [hen, hp], by simp [hen, hp], fun _ => by simp [hen, hp],
        fun _ => by simp [hen, hp], fun mon _ _ hpw => absurd hpw hp⟩
  · simp only [Bool.not_eq_true] at hen
    refine ⟨by simp [hen], by simp [hen], fun _ => by simp [hen], fun _ => by simp [hen],
      fun _ => by simp [hen], fun mon _ hc _ => absurd hc (by simp [hen])⟩

/-! ## C5: the stale-OSD reconciler -/

/-- Written from the claim (C5): an existing OSD record is stale exactly when
no desired entry matches it by backing path, or a matching desired entry has
a differing function, or a matching desired entry dropped its journal while
the record still carries a journal location that is not the record's own
identifier. -/
def staleOSDSpec (host : HostInfo) (infos : List OSDInfo) (osd : OSD) : Bool :=
  !(infos.any (fun o => FindOSDByPath host o.path == Option.some osd)) ||
  infos.any (fun o =>
    FindOSDByPath host o.path == Option.some osd &&
    (osd.function != o.function ||
     (o.journal.isNone &&
      (match osd.journalInfo.location with
       | Option.some loc => loc != osd.id
       | Option.none => false))))

/-- The deletion test the loop of ReconcileStaleOSDs applies to a record. -/
def staleLoopPred (present flagged : List String) (osd : OSD) : Bool :=
  !(present.contains osd.id) || flagged.contains osd.id

theorem stalePresent_contains (host : HostInfo) (infos : List OSDInfo) (osd : OSD)
    (hmem : osd ∈ host.osds) (hnd : (host.osds.map OSD.id).Nodup) :
    (stalePresent host infos).contains osd.id
      = infos.any (fun o => FindOSDByPath host o.path == Option.some osd) := by
  rw [Bool.eq_iff_iff]
  constructor
  · intro h
    have hmem2 : osd.id ∈ stalePresent host infos := by
      simpa using h
    rw [stalePresent, List.mem_filterMap] at hmem2
    obtain ⟨o, ho, hfo⟩ := hmem2
    rw [List.any_eq_true]
    refine ⟨o, ho, ?_⟩
    obtain ⟨r, hr, hrid⟩ := Option.map_eq_some.mp hfo
    have hrmem : r ∈ host.osds := List.mem_of_find?_eq_some hr
    have : r = osd := List.inj_on_of_nodup_map hnd hrmem hmem hrid
    subst this
    simpa using hr
  · intro h
    rw [List.any_eq_true] at h
    obtain ⟨o, ho, hfo⟩ := h
    have hfo2 : FindOSDByPath host o.path = Option.some osd := by simpa using hfo
    have : osd.id ∈ stalePresent host infos := by
      rw [stalePresent, List.mem_filterMap]
      exact ⟨o, ho, by rw [hfo2]; rfl⟩
    simpa using this

theorem staleFlagged_contains (host : HostInfo) (infos : List OSDInfo) (osd : OSD)
    (hmem : osd ∈ host.osds) (hnd : (host.osds.map OSD.id).Nodup) :
    (staleFlagged host infos).contains osd.id
      = infos.any (fun o =>
          FindOSDByPath host o.path == Option.some osd &&
          (osd.function != o.function ||
           (o.journal.isNone &&
            (match osd.journalInfo.location with
             | Option.some loc => loc != osd.id
             | Option.none => false)))) := by
  rw [Bool.eq_iff_iff]
  constructor
  · intro h
    have hmem2 : osd.id ∈ staleFlagged host infos := by simpa using h
    rw [staleFlagged, List.mem_filterMap] at hmem2
    obtain ⟨o, ho, hfo⟩ := hmem2
    rw [List.any_eq_true]
    refine ⟨o, ho, ?_⟩
    cases hf : FindOSDByPath host o.path with
    | none => simp [hf] at hfo
    | some r =>
      simp only [hf] at hfo
      have hrmem : r ∈ host.osds := List.mem_of_find?_eq_some hf
      by_cases hfun : r.function = o.function
      · cases hj : o.journal with
        | some j =>
          simp [hfun, hj] at hfo
        | none =>
          cases hl : r.journalInfo.location with
          | none =>
            simp [hfun, hj, hl] at hfo
          | some loc =>
            by_cases hne : loc = r.id
            · simp [hfun, hj, hl, hne] at hfo
            · simp [hfun, hj, hl, hne] at hfo
              have hro : r = osd := List.inj_on_of_nodup_map hnd hrmem hmem hfo
              subst hro
              simp [hf, hj, hl, hne, hfun]
      · simp [hfun] at hfo
        have hro : r = osd := List.inj_on_of_nodup_map hnd hrmem hmem hfo
        subst hro
        simp [hf, bne_iff_ne, hfun]
  · intro h
    rw [List.any_eq_true] at h
    obtain ⟨o, ho, hcond⟩ := h
    rw [Bool.and_eq_true] at hcond
    obtain ⟨hfo, hrest⟩ := hcond
    have hfo2 : FindOSDByPath host o.path = Option.some osd := by simpa using hfo
    have hgoal : osd.id ∈ staleFlagged host infos := by
      rw [staleFlagged, List.mem_filterMap]
      refine ⟨o, ho, ?_⟩
      simp only [hfo2]
      by_cases hfun : osd.function = o.function
      · rw [Bool.or_eq_true] at hrest
        cases hrest with
        | inl hne => exact absurd hfun (by simpa using hne)
        | inr hjl =>
          rw [Bool.and_eq_true] at hjl
          obtain ⟨hj, hloc⟩ := hjl
          rw [Option.isNone_iff_eq_none] at hj
          cases hl : osd.journalInfo.location with
          | none =>
            rw [hl] at hloc
            exact absurd hloc (by simp)
          | some loc =>
            rw [hl] at hloc
            have hne : loc ≠ osd.id := by simpa using hloc
            simp [hfun, hj, hl, hne]
      · simp [hfun]
    simpa using hgoal

theorem listAny_congr {α : Type} (l : List α) (p q : α → Bool)
    (h : ∀ x ∈ l, p x = q x) : l.any p = l.any q := by
  induction l with
  | nil => rfl
  | cons a t ih =>
    simp only [List.any_cons, h a (by simp), ih (fun x hx => h x (by simp [hx]))]

theorem staleDeleteLoop_trace (present flagged : List String) (olist : List OSD)
    (changes : Bool) (s : RState) :
    (staleDeleteLoop present flagged olist changes s).1.trace
      = s.trace ++ (olist.filter (staleLoopPred present flagged)).map
          (fun o => Event.deleteOSD o.id) := by
  induction olist generalizing s changes with
  | nil => simp [staleDeleteLoop]
  | cons osd rest ih =>
    by_cases hc : osd.id ∉ present ∨ osd.id ∈ flagged
    · simp [staleDeleteLoop, staleLoopPred, hc, ih, List.filter_cons]
    · simp [staleDeleteLoop, staleLoopPred, hc, ih, List.filter_cons]

theorem staleDeleteLoop_changes (present flagged : List String) (olist : List OSD)
    (changes : Bool) (s : RState) :
    (staleDeleteLoop present flagged olist changes s).2
      = (changes || olist.any (staleLoopPred present flagged)) := by
  induction olist generalizing s changes with
  | nil => simp [staleDeleteLoop]
  | cons osd rest ih =>
    by_cases hc : osd.id ∉ present ∨ osd.id ∈ flagged
    · simp [staleDeleteLoop, staleLoopPred, hc, ih]
    · push_neg at hc
      simp [staleDeleteLoop, staleLoopPred, hc.1, hc.2, ih]

theorem staleDeleteLoop_host (present flagged : List String) (olist : List OSD)
    (changes : Bool) (s : RState) :
    (staleDeleteLoop present flagged olist changes s).1.host = s.host := by
  induction olist generalizing s changes with
  | nil => simp [staleDeleteLoop]
  | cons osd rest ih =>
    by_cases hc : osd.id ∉ present ∨ osd.id ∈ flagged
    · simp [staleDeleteLoop, hc, ih]
    · simp [staleDeleteLoop, hc, ih]

theorem staleDeleteLoop_id (present flagged : List String) (olist : List OSD)
    (changes : Bool) (s : RState)
    (h : olist.any (staleLoopPred present flagged) = false) :
    staleDeleteLoop present flagged olist changes s = (s, changes) := by
  induction olist generalizing s changes with
  | nil => simp [staleDeleteLoop]
  | cons osd rest ih =>
    simp only [List.any_cons, Bool.or_eq_false_iff] at h
    obtain ⟨h1, h2⟩ := h
    have hc : ¬(osd.id ∉ present ∨ osd.id ∈ flagged) := by
      simpa [staleLoopPred] using h1
    simp [staleDeleteLoop, hc, ih _ _ h2]

theorem staleLoopPred_eq_spec (host : HostInfo) (infos : List OSDInfo) (osd : OSD)
    (hmem : osd ∈ host.osds) (hnd : (host.osds.map OSD.id).Nodup) :
    staleLoopPred (stalePresent host infos) (staleFlagged host infos) osd
      = staleOSDSpec host infos osd := by
  unfold staleLoopPred staleOSDSpec
  rw [stalePresent_contains host infos osd hmem hnd,
      staleFlagged_contains host infos osd hmem hnd]

/-- C5: ReconcileStaleOSDs deletes exactly the existing OSD records that are
absent from the present set or flagged for recreation (per `staleOSDSpec`,
written from the claim), returns no wait or error, refreshes the snapshot's
OSD list from the remote system exactly when at least one deletion occurred,
and leaves the state untouched otherwise. -/
theorem reconcileStaleOSDs_characterization (cfg : Config) (st : ProfileStorageInfo)
    (s : RState) (infos : List OSDInfo)
    (hosd : st.osds = Option.some infos)
    (hen : cfg.osdEnabled = true)
    (hnd : (s.host.osds.map OSD.id).Nodup) :
    (ReconcileStaleOSDs cfg st s).2 = Option.none ∧
    (ReconcileStaleOSDs cfg st s).1.trace
      = s.trace ++ (s.host.osds.filter (staleOSDSpec s.host infos)).map
          (fun o => Event.deleteOSD o.id) ∧
    ((s.host.osds.any (staleOSDSpec s.host infos)) = true →
      (ReconcileStaleOSDs cfg st s).1.host.osds
        = (ReconcileStaleOSDs cfg st s).1.sys.osds) ∧
    ((s.host.osds.any (staleOSDSpec s.host infos)) = false →
      ReconcileStaleOSDs cfg st s = (s, Option.none)) := by
  have hfilter : s.host.osds.filter
      (staleLoopPred (stalePresent s.host infos) (staleFlagged s.host infos))
      = s.host.osds.filter (staleOSDSpec s.host infos) :=
    List.filter_congr (fun o hmem => staleLoopPred_eq_spec s.host infos o hmem hnd)
  have hany : s.host.osds.any
      (staleLoopPred (stalePresent s.host infos) (staleFlagged s.host infos))
      = s.host.osds.any (staleOSDSpec s.host infos) :=
    listAny_congr _ _ _ (fun o hmem => staleLoopPred_eq_spec s.host infos o hmem hnd)
  have htr := staleDeleteLoop_trace (stalePresent s.host infos)
    (staleFlagged s.host infos) s.host.osds false s
  have hch := staleDeleteLoop_changes (stalePresent s.host infos)
    (staleFlagged s.host infos) s.host.osds false s
  rcases hsd : staleDeleteLoop (stalePresent s.host infos) (staleFlagged s.host infos)
      s.host.osds false s with ⟨s1, changes⟩
  rw [hsd] at htr hch
  replace htr : s1.trace = s.trace ++ (s.host.osds.filter
      (staleLoopPred (stalePresent s.host infos) (staleFlagged s.host infos))).map
      (fun o => Event.deleteOSD o.id) := by simpa using htr
  replace hch : changes = s.host.osds.any
      (staleLoopPred (stalePresent s.host infos) (staleFlagged s.host infos)) := by
    simpa using hch
  unfold ReconcileStaleOSDs
  rw [hosd]
  simp only [hen, Bool.not_true, Bool.false_eq_true, if_false, hsd]
  refine ⟨?_, ?_, ?_, ?_⟩
  · cases changes <;> simp
  · cases changes <;> simp [htr, hfilter]
  · intro h
    have : changes = true := by rw [hch, hany]; exact h
    simp [this]
  · intro h
    have hch2 : changes = false := by rw [hch, hany]; exact h
    have := staleDeleteLoop_id (stalePresent s.host infos) (staleFlagged s.host infos)
      s.host.osds false s (by rw [hany]; exact h)
    rw [hsd] at this
    have hs1 : s1 = s := congrArg Prod.fst this
    subst hs1
    simp [hch2]

/-- C5 witness: the characterization applied at the example state (no
existing OSDs, one desired OSD). -/
theorem reconcileStaleOSDs_characterization_witness :
    (ReconcileStaleOSDs allOn exStorage exState).2 = Option.none ∧
    (ReconcileStaleOSDs allOn exStorage exState).1.trace
      = exState.trace ++ (exState.host.osds.filter (staleOSDSpec exState.host [exOSDInfo])).map
          (fun o => Event.deleteOSD o.id) ∧
    ((exState.host.osds.any (staleOSDSpec exState.host [exOSDInfo])) = true →
      (ReconcileStaleOSDs allOn exStorage exState).1.host.osds
        = (ReconcileStaleOSDs allOn exStorage exState).1.sys.osds) ∧
    ((exState.host.osds.any (staleOSDSpec exState.host [exOSDInfo])) = false →
      ReconcileStaleOSDs allOn exStorage exState = (exState, Option.none)) :=
  reconcileStaleOSDs_characterization allOn exStorage exState [exOSDInfo]
    rfl rfl (by simp [exState, exHost])

/-! ## C4: empty (non-nil) desired OSD list -/

/-- An existing OSD record used by the empty-list scenario. -/
def c4OSD : OSD :=
  { id := "osd-1", function := FunctionOSD, path := "/dev/sdb", diskID := "disk-0",
    journalInfo := { location := Option.none, gib := 0 } }

def c4Host : HostInfo := { exHost with osds := [c4OSD] }

def c4Sys : Sys := { exSys with osds := [c4OSD] }

def c4State : RState := { sys := c4Sys, host := c4Host, trace := [] }

/-- A desired storage profile whose OSD list is empty but non-nil. -/
def c4Storage : ProfileStorageInfo :=
  { monitor := Option.none, osds := Option.some ([] : List OSDInfo),
    volumeGroups := Option.none, fileSystems := Option.none }

/-- C4 counterexample: with a zero-length but non-nil desired OSD list and
one existing OSD record, ReconcileStaleOSDs deletes the existing record — the
empty list is not treated like a nil list. -/
theorem reconcileStaleOSDs_empty_list_refutes :
    c4Storage.osds = Option.some ([] : List OSDInfo) ∧
    (ReconcileStaleOSDs allOn c4Storage c4State).1.trace
      = [Event.deleteOSD "osd-1"] := by
  refine ⟨rfl, by decide⟩

/-- C4 (amended): ReconcileOSDs treats a zero-length, non-nil OSD list as not
configured and issues no OSD mutation; ReconcileStaleOSDs however treats only
a nil list that way: with an empty non-nil desired list it deletes every
existing OSD record of the host. -/
theorem reconcileOSDs_empty_list_characterization (cfg : Config)
    (st : ProfileStorageInfo) (s : RState)
    (hosd : st.osds = Option.some ([] : List OSDInfo))
    (hen : cfg.osdEnabled = true) :
    ReconcileOSDs cfg st s = (s, Option.none) ∧
    (ReconcileStaleOSDs cfg st s).2 = Option.none ∧
    (ReconcileStaleOSDs cfg st s).1.trace
      = s.trace ++ s.host.osds.map (fun o => Event.deleteOSD o.id) := by
  have hfilter : s.host.osds.filter (staleLoopPred [] []) = s.host.osds := by
    rw [List.filter_eq_self]
    intro o _
    simp [staleLoopPred]
  have hpres : stalePresent s.host ([] : List OSDInfo) = [] := rfl
  have hflag : staleFlagged s.host ([] : List OSDInfo) = [] := rfl
  have htr := staleDeleteLoop_trace [] [] s.host.osds false s
  rw [hfilter] at htr
  refine ⟨?_, ?_, ?_⟩
  · unfold ReconcileOSDs
    rw [hosd]
    simp [hen]
  · unfold ReconcileStaleOSDs
    rw [hosd]
    simp only [hen, Bool.not_true, Bool.false_eq_true, if_false, hpres, hflag]
    rcases hsd : staleDeleteLoop [] [] s.host.osds false s with ⟨s1, changes⟩
    cases changes <;> simp
  · unfold ReconcileStaleOSDs
    rw [hosd]
    simp only [hen, Bool.not_true, Bool.false_eq_true, if_false, hpres, hflag]
    rcases hsd : staleDeleteLoop [] [] s.host.osds false s with ⟨s1, changes⟩
    rw [hsd] at htr
    replace htr : s1.trace = s.trace ++ s.host.osds.map (fun o => Event.deleteOSD o.id) := by
      simpa using htr
    cases changes <;> simp [htr]

/-- C4 witness: the amended characterization applied at the empty-list
scenario with one existing OSD. -/
theorem reconcileOSDs_empty_list_witness :
    ReconcileOSDs allOn c4Storage c4State = (c4State, Option.none) ∧
    (ReconcileStaleOSDs allOn c4Storage c4State).2 = Option.none ∧
    (ReconcileStaleOSDs allOn c4Storage c4State).1.trace
      = c4State.trace ++ c4State.host.osds.map (fun o => Event.deleteOSD o.id) :=
  reconcileOSDs_empty_list_characterization allOn c4Storage c4State rfl rfl

/-! ## C6: filesystem size reconciliation -/

/-- Written from the claim (C6): the growing entries — one update option per
desired filesystem and matching host filesystem whose desired size strictly
exceeds the current size, in desired order. -/
def fsSizesGrowing (infos : List FileSystemInfo) (hostFS : List FileSystem) :
    List FileSystemOpts :=
  (infos.map (fun fsInfo => hostFS.filterMap (fun fs =>
    if fs.name == fsInfo.name then
      (if fsInfo.size > fs.size then
        Option.some ({ name := fsInfo.name, size := fsInfo.size } : FileSystemOpts)
       else Option.none)
    else Option.none))).flatten

/-- Written from the claim (C6): size reconciliation waits for the
unlocked/available state, fails with MissingResource at the first desired
filesystem missing from the host, never shrinks, and issues exactly one
combined update call containing all growing entries (none when no entry
grows). -/
def fsSizesSpec (infos : List FileSystemInfo) (s : RState) : RState × Option RErr :=
  if !(IsUnlockedAvailable s.host) then
    (s, Option.some (RErr.waitFor (MonitorKind.unlockedAvailableHost s.host.id)
      "waiting for host to reach available state"))
  else
    match infos.find? (fun f => !(s.host.fileSystems.any (fun c => c.name == f.name))) with
    | Option.some f =>
      (s, Option.some (RErr.missing ("unknown host filesystem \"" ++ f.name ++ "\"")))
    | Option.none =>
      let updates := fsSizesGrowing infos s.host.fileSystems
      if updates.length > 0 then
        ({ s with
           sys := sysUpdateFileSystems s.sys updates
           trace := s.trace ++ [Event.updateFileSystemSizes s.host.id updates] },
         Option.none)
      else (s, Option.none)

theorem fsSizesLoop_eq (infos : List FileSystemInfo) (hostFS : List FileSystem)
    (acc : List FileSystemOpts) :
    fsSizesLoop infos hostFS acc =
      (match infos.find? (fun f => !(hostFS.any (fun c => c.name == f.name))) with
      | Option.some f =>
        Except.error (RErr.missing ("unknown host filesystem \"" ++ f.name ++ "\""))
      | Option.none => Except.ok (acc ++ fsSizesGrowing infos hostFS)) := by
  induction infos generalizing acc with
  | nil => simp [fsSizesLoop, fsSizesGrowing]
  | cons f rest ih =>
    by_cases hfound : (hostFS.any (fun c => c.name == f.name)) = true
    · simp [fsSizesLoop, hfound, List.find?_cons, fsSizesGrowing, ih]
    · simp only [Bool.not_eq_true] at hfound
      simp [fsSizesLoop, hfound, List.find?_cons]

/-- C6: ReconcileFileSystemSizes equals the claim's description: a Wait when
the host is not unlocked/available, MissingResource for a desired filesystem
absent from the host, and otherwise exactly one combined update carrying the
strictly growing entries (no update call when none grows). -/
theorem reconcileFileSystemSizes_spec (cfg : Config) (st : ProfileStorageInfo)
    (s : RState) (infos : List FileSystemInfo)
    (hfs : st.fileSystems = Option.some infos)
    (hne : infos ≠ [])
    (hen : cfg.fileSystemSizesEnabled = true) :
    ReconcileFileSystemSizes cfg st s = fsSizesSpec infos s := by
  unfold ReconcileFileSystemSizes fsSizesSpec
  rw [hfs]
  have hlen : (infos.length == 0) = false := by
    simp [List.length_eq_zero, hne]
  simp only [hen, Bool.not_true, Bool.false_eq_true, if_false, hlen]
  by_cases hub : IsUnlockedAvailable s.host = true
  · simp only [hub, Bool.not_true, Bool.false_eq_true, if_false, fsSizesLoop_eq]
    cases infos.find? (fun f => !(s.host.fileSystems.any (fun c => c.name == f.name))) with
    | none => simp
    | some f => simp
  · simp only [Bool.not_eq_true] at hub
    simp [hub]

/-- A host filesystem record for the size-reconciliation example. -/
def c6FS : FileSystem := { id := "fs-1", name := "backup", size := 10 }

def c6Host : HostInfo := { exHost with fileSystems := [c6FS] }

def c6State : RState :=
  { sys := { exSys with fileSystems := [c6FS] }, host := c6Host, trace := [] }

/-- One desired filesystem growing backup from 10 to 20. -/
def c6Info : FileSystemInfo := { name := "backup", size := 20 }

def c6Storage : ProfileStorageInfo :=
  { monitor := Option.none, osds := Option.none, volumeGroups := Option.none,
    fileSystems := Option.some [c6Info] }

/-- C6 witness: the equality applied at a host with one filesystem of size 10
desired at size 20. -/
theorem reconcileFileSystemSizes_spec_witness :
    ReconcileFileSystemSizes allOn c6Storage c6State = fsSizesSpec [c6Info] c6State :=
  reconcileFileSystemSizes_spec allOn c6Storage c6State [c6Info] rfl (by simp) rfl

/-! ## C7: missing disk for a partition-backed physical volume -/

/-- Written from the claim (C7): an entry the provisioning loop passes over
without creating anything: not of partition type, no specified size, or a
matching partition already exists. -/
def partitionEntrySkipped (host : HostInfo) (groupName : String)
    (e : PhysicalVolumeInfo) : Bool :=
  !(e.pvType == PVTypePartition) || e.size.isNone ||
  (FindPartitionByPath host e.path (e.size.getD 0) groupName).isSome

/-- Written from the claim (C7): a desired physical volume of partition type
with a specified size for which no matching partition exists in the snapshot
and no disk can be found at the backing path. -/
def partitionEntryBad (host : HostInfo) (groupName : String)
    (e : PhysicalVolumeInfo) : Bool :=
  e.pvType == PVTypePartition && e.size.isSome &&
  (FindPartitionByPath host e.path (e.size.getD 0) groupName).isNone &&
  (FindDiskByPath host e.path).isNone

theorem partitionsLoop_bad (groupName : String) (entries : List PhysicalVolumeInfo)
    (updated : Bool) (s : RState) (e : PhysicalVolumeInfo)
    (hall : ∀ x ∈ entries,
      (partitionEntrySkipped s.host groupName x || partitionEntryBad s.host groupName x) = true)
    (hbad : entries.find? (partitionEntryBad s.host groupName) = Option.some e) :
    partitionsLoop groupName entries updated s
      = ((s, updated), Option.some (RErr.missing ("failed to find disk for path " ++ e.path))) := by
  induction entries generalizing updated with
  | nil => simp at hbad
  | cons x rest ih =>
    by_cases hb : partitionEntryBad s.host groupName x = true
    · rw [List.find?_cons_of_pos _ hb] at hbad
      obtain rfl : x = e := by injection hbad
      simp only [partitionEntryBad, Bool.and_eq_true] at hb
      obtain ⟨⟨⟨hty, hsz⟩, hm⟩, hd⟩ := hb
      have hty2 : x.pvType = PVTypePartition := by simpa using hty
      have hsz2 : x.size.isNone = false := by simp [Option.isNone_eq_false_iff]; simpa using hsz
      have hm2 : FindPartitionByPath s.host x.path (x.size.getD 0) groupName = Option.none := by
        simpa [Option.isNone_iff_eq_none] using hm
      have hd2 : FindDiskByPath s.host x.path = Option.none := by
        simpa [Option.isNone_iff_eq_none] using hd
      simp [partitionsLoop, hty2, hsz2, hm2, hd2]
    · have hb2 : partitionEntryBad s.host groupName x ≠ true := hb
      rw [List.find?_cons_of_neg _ hb2] at hbad
      have hskip : partitionEntrySkipped s.host groupName x = true := by
        have hx := hall x (by simp)
        rw [Bool.or_eq_true] at hx
        cases hx with
        | inl h => exact h
        | inr h => exact absurd h hb
      have hrest : ∀ x ∈ rest,
          (partitionEntrySkipped s.host groupName x || partitionEntryBad s.host groupName x) = true :=
        fun y hy => hall y (by simp [hy])
      by_cases hty : x.pvType = PVTypePartition
      · by_cases hsz : x.size.isNone = true
        · simp [partitionsLoop, hsz, ih updated hrest hbad]
        · have hmatch : (FindPartitionByPath s.host x.path (x.size.getD 0) groupName).isSome = true := by
            simp only [partitionEntrySkipped, Bool.or_eq_true] at hskip
            rcases hskip with (h | h) | h
            · exact absurd (by simpa using h) (by simp [hty])
            · exact absurd h (by simp [hsz])
            · exact h
          obtain ⟨p, hp⟩ := Option.isSome_iff_exists.mp hmatch
          simp [partitionsLoop, hty, hsz, hp, ih updated hrest hbad]
      · simp [partitionsLoop, hty, ih updated hrest hbad]

/-- C7: when every desired entry of the group is either passed over or bad,
and some entry is bad — partition type with a specified size, no matching
partition, no disk at the backing path — ReconcilePartitions returns a
MissingResource error (not a Wait Descriptor) for the first bad entry and
leaves the state untouched (no create is issued); ReconcilePhysicalVolumes,
which invokes it first, propagates the same error unchanged. -/
theorem reconcilePartitions_missing_disk (cfg : Config) (group : VolumeGroupInfo)
    (s : RState) (e : PhysicalVolumeInfo)
    (hen : cfg.partitionEnabled = true)
    (hall : ∀ x ∈ group.physicalVolumes,
      (partitionEntrySkipped s.host group.name x || partitionEntryBad s.host group.name x) = true)
    (hbad : group.physicalVolumes.find? (partitionEntryBad s.host group.name) = Option.some e) :
    ReconcilePartitions cfg group s
      = (s, Option.some (RErr.missing ("failed to find disk for path " ++ e.path))) ∧
    (∀ vg, cfg.physicalVolumeEnabled = true →
      FindVolumeGroup s.host group.name = Option.some vg →
      ReconcilePhysicalVolumes cfg group s
        = (s, Option.some (RErr.missing ("failed to find disk for path " ++ e.path)))) := by
  have hloop := partitionsLoop_bad group.name group.physicalVolumes false s e hall hbad
  constructor
  · unfold ReconcilePartitions
    simp [hen, hloop]
  · intro vg hpv hvg
    unfold ReconcilePhysicalVolumes
    have hpart : ReconcilePartitions cfg group s
        = (s, Option.some (RErr.missing ("failed to find disk for path " ++ e.path))) := by
      unfold ReconcilePartitions
      simp [hen, hloop]
    simp [hpv, hvg, hpart]

/-- The bad entry of the examples: partition type, size specified, no
matching partition, no disk at its path. -/
def c7Entry : PhysicalVolumeInfo :=
  { pvType := PVTypePartition, path := "/dev/sdz", size := Option.some 5 }

def c7Group : VolumeGroupInfo :=
  { name := "nova-local", lvmType := Option.none, physicalVolumes := [c7Entry] }

/-- C7 witness: the theorem applied at a host with no partitions and no disk
at the entry's path. -/
theorem reconcilePartitions_missing_disk_witness :
    (ReconcilePartitions allOn c7Group exState
      = (exState, Option.some (RErr.missing ("failed to find disk for path " ++ c7Entry.path))) ∧
    (∀ vg, allOn.physicalVolumeEnabled = true →
      FindVolumeGroup exState.host c7Group.name = Option.some vg →
      ReconcilePhysicalVolumes allOn c7Group exState
        = (exState, Option.some (RErr.missing ("failed to find disk for path " ++ c7Entry.path))))) :=
  reconcilePartitions_missing_disk allOn c7Group exState c7Entry rfl (by decide) (by decide)

/-! ## C10: the transient-partition check -/

/-- A partition with a transient (creating) status, present in the snapshot
of the check's example states. -/
def c10Part : DiskPartition :=
  { id := "part-1", path := "/dev/sdb", size := 2, group := "", status := StatusCreating }

def c10Host : HostInfo := { exHost with partitions := [c10Part] }

def c10State : RState :=
  { sys := { exSys with partitions := [c10Part] }, host := c10Host, trace := [] }

/-- A group whose provisioning loop completes with no creation. -/
def c10Group : VolumeGroupInfo :=
  { name := "nova-local", lvmType := Option.none, physicalVolumes := [] }

/-- A group whose provisioning loop returns early with MissingResource. -/
def c10BadGroup : VolumeGroupInfo :=
  { name := "nova-local", lvmType := Option.none, physicalVolumes := [c7Entry] }

/-- C10 counterexample: an invocation whose provisioning loop hits a missing
disk returns MissingResource even though a partition in the snapshot is in a
transient status — the transient-status check is not reached on every
invocation. -/
theorem reconcilePartitions_transient_refutes :
    (c10State.host.partitions.any transientPartition) = true ∧
    ReconcilePartitions allOn c10BadGroup c10State
      = (c10State, Option.some (RErr.missing "failed to find disk for path /dev/sdz")) := by
  refine ⟨by decide, by decide⟩

/-- C10 (amended): on every invocation whose provisioning loop completes
without an error — in particular one that created no partition and performed
no refresh — if any partition in the (refreshed, when a creation occurred)
snapshot has a transient status, ReconcilePartitions returns the
partition-state Wait Descriptor instead of success. -/
theorem reconcilePartitions_transient_check (cfg : Config) (group : VolumeGroupInfo)
    (s s1 : RState) (upd : Bool)
    (hen : cfg.partitionEnabled = true)
    (hloop : partitionsLoop group.name group.physicalVolumes false s
      = ((s1, upd), Option.none))
    (htrans : ((if upd then s1.sys.partitions ++ s1.sys.systemPartitions
                else s1.host.partitions).any transientPartition) = true) :
    ReconcilePartitions cfg group s
      = ((if upd then
           { s1 with host :=
             { s1.host with partitions := s1.sys.partitions ++ s1.sys.systemPartitions } }
          else s1),
         Option.some (RErr.waitFor (MonitorKind.partitionState s1.host.id)
           "waiting for partitions to transition to ready state")) := by
  unfold ReconcilePartitions
  cases upd with
  | false =>
    simp only [if_false, Bool.false_eq_true] at htrans ⊢
    simp [hen, hloop, htrans]
  | true =>
    simp only [if_true] at htrans ⊢
    simp [hen, hloop, htrans]

/-- C10 witness: the amended theorem applied at an empty desired list with a
creating-status partition in the snapshot. -/
theorem reconcilePartitions_transient_check_witness :
    ReconcilePartitions allOn c10Group c10State
      = (c10State, Option.some (RErr.waitFor (MonitorKind.partitionState c10State.host.id)
          "waiting for partitions to transition to ready state")) :=
  reconcilePartitions_transient_check allOn c10Group c10State c10State false
    rfl rfl (by decide)

/-! ## C2: the top-level orchestrator -/

/-- Sequential composition of two reconciliation steps, short-circuiting the
second on a wait or error from the first. -/
def seqStep (a b : RState → RState × Option RErr) (s : RState) : RState × Option RErr :=
  match a s with
  | (s1, Option.some e) => (s1, Option.some e)
  | (s1, Option.none) => b s1

theorem seqStep_err (a b : RState → RState × Option RErr) (s s1 : RState) (e : RErr)
    (h : a s = (s1, Option.some e)) : seqStep a b s = (s1, Option.some e) := by
  simp [seqStep, h]

theorem seqStep_ok (a b : RState → RState × Option RErr) (s s1 : RState)
    (h : a s = (s1, Option.none)) : seqStep a b s = b s1 := by
  simp [seqStep, h]

/-- Whether an event is an OSD creation. -/
def isOSDCreation : Event → Bool
  | Event.createOSD _ => true
  | _ => false

/-- C2 counterexample: on a standard system with an enabled controller host,
the host's power state satisfies the classifier's Enabled requirement, yet
the orchestrator skips OSD reconciliation entirely (no OSD creation in its
trace and a clean pass) even though running ReconcileOSDs directly on the
same state would create the desired OSD: the orchestrator dispatches on the
classifier's result being Disabled or Any, never on the host's power state. -/
theorem reconcileStorage_skips_osds_refutes :
    RequiredStateSatisfied exState.host
      (OSDProvisioningState allOn exState.host.personality) = true ∧
    ReconcileStorage allOn exProfile exState = (exState, Option.none) ∧
    ((ReconcileOSDs allOn exStorage exState).1.trace.countP isOSDCreation) = 1 := by
  refine ⟨by decide, by decide, by decide⟩

/-- C2 (amended): with storage reconciliation enabled and a storage profile
present, ReconcileStorage is exactly the short-circuiting sequence Monitor,
then FileSystem types, then Volume Groups, then Stale OSDs, then — only when
the provisioning-state classifier returns Disabled or Any, the host's actual
power state is never consulted — OSDs; each step's wait or error ends the
pass with no later step running. -/
theorem reconcileStorage_order (cfg : Config) (profile : HostProfileSpec)
    (st : ProfileStorageInfo) (s : RState)
    (hen : cfg.storageEnabled = true)
    (hst : profile.storage = Option.some st) :
    ReconcileStorage cfg profile s
      = seqStep (ReconcileMonitor cfg profile.personality st)
          (seqStep (ReconcileFileSystemTypes cfg st)
            (seqStep (ReconcileVolumeGroups cfg st)
              (seqStep (ReconcileStaleOSDs cfg st)
                (fun s4 =>
                  if OSDProvisioningState cfg s4.host.personality = RequiredState.disabled ∨
                     OSDProvisioningState cfg s4.host.personality = RequiredState.any
                  then ReconcileOSDs cfg st s4
                  else (s4, Option.none))))) s := by
  unfold ReconcileStorage
  simp only [hen, Bool.not_true, Bool.false_eq_true, if_false, hst]
  rcases h1 : ReconcileMonitor cfg profile.personality st s with ⟨s1, e1⟩
  cases e1 with
  | some e => simp [seqStep, h1]
  | none =>
    rcases h2 : ReconcileFileSystemTypes cfg st s1 with ⟨s2, e2⟩
    cases e2 with
    | some e => simp [seqStep, h1, h2]
    | none =>
      rcases h3 : ReconcileVolumeGroups cfg st s2 with ⟨s3, e3⟩
      cases e3 with
      | some e => simp [seqStep, h1, h2, h3]
      | none =>
        rcases h4 : ReconcileStaleOSDs cfg st s3 with ⟨s4, e4⟩
        cases e4 with
        | some e => simp [seqStep, h1, h2, h3, h4]
        | none =>
          cases hcls : OSDProvisioningState cfg s4.host.personality <;>
            simp [seqStep, h1, h2, h3, h4, hcls]

/-- C2 witness: the order characterization applied at the example inputs. -/
theorem reconcileStorage_order_witness :
    ReconcileStorage allOn exProfile exState
      = seqStep (ReconcileMonitor allOn exProfile.personality exStorage)
          (seqStep (ReconcileFileSystemTypes allOn exStorage)
            (seqStep (ReconcileVolumeGroups allOn exStorage)
              (seqStep (ReconcileStaleOSDs allOn exStorage)
                (fun s4 =>
                  if OSDProvisioningState allOn s4.host.personality = RequiredState.disabled ∨
                     OSDProvisioningState allOn s4.host.personality = RequiredState.any
                  then ReconcileOSDs allOn exStorage s4
                  else (s4, Option.none))))) exState :=
  reconcileStorage_order allOn exProfile exStorage exState rfl rfl

/-! ## C9: journal OSDs are created before the data OSDs that reference them -/

theorem FindDiskByPath_set_osds (h : HostInfo) (x : List OSD) (p : String) :
    FindDiskByPath { h with osds := x } p = FindDiskByPath h p := rfl

theorem LookupStorageTier_set_osds (h : HostInfo) (x : List OSD) (n : String) :
    LookupStorageTier { h with osds := x } n = LookupStorageTier h n := rfl

theorem OSDProvisioningAllowed_set_osds (cfg : Config) (o : OSDInfo)
    (t : Option String) (h : HostInfo) (x : List OSD) :
    OSDProvisioningAllowed cfg o t { h with osds := x }
      = OSDProvisioningAllowed cfg o t h := rfl

/-- C9: for a desired configuration holding one data OSD referencing one
journal OSD (listed data first), on a host with no existing OSDs where both
backing disks exist, both tiers are allocated and the admission gate passes,
the combined reconciler emits the journal OSD's creation strictly before the
data OSD's creation, and the data OSD's create payload carries the journal
OSD's system-assigned identifier, resolved by path from the refreshed
snapshot. -/
theorem reconcileOSDs_journal_before_data (cfg : Config) (st : ProfileStorageInfo)
    (s : RState) (j d : OSDInfo) (jDisk dDisk : Disk) (jTier dTier : StorageTier)
    (sz : Int)
    (hen : cfg.osdEnabled = true)
    (hlist : st.osds = Option.some [d, j])
    (hjf : j.function = FunctionJournal)
    (hdf : d.function = FunctionOSD)
    (hjj : j.journal = Option.none)
    (hdj : d.journal = Option.some { location := j.path, size := sz })
    (hpaths : j.path ≠ d.path)
    (hosds : s.host.osds = [])
    (hsys : s.sys.osds = [])
    (hjd : FindDiskByPath s.host j.path = Option.some jDisk)
    (hdd : FindDiskByPath s.host d.path = Option.some dDisk)
    (htj : LookupStorageTier s.host j.GetClusterName = Option.some jTier)
    (htd : LookupStorageTier s.host d.GetClusterName = Option.some dTier)
    (hgj : OSDProvisioningAllowed cfg j (Option.some jTier.id) s.host = Option.none)
    (hgd : OSDProvisioningAllowed cfg d (Option.some dTier.id) s.host = Option.none) :
    (ReconcileOSDs cfg st s).2 = Option.none ∧
    (ReconcileOSDs cfg st s).1.trace
      = s.trace ++
        [Event.createOSD
          { hostID := Option.some s.host.id, diskID := Option.some jDisk.id,
            function := Option.some j.function, journalLocation := Option.none,
            journalSize := Option.none, tierUUID := Option.some jTier.id },
         Event.createOSD
          { hostID := Option.some s.host.id, diskID := Option.some dDisk.id,
            function := Option.some d.function,
            journalLocation := Option.some (mkID s.sys.nextID),
            journalSize := Option.some sz, tierUUID := Option.some dTier.id }] := by
  have hpbne : (j.path == d.path) = false := by
    simp [hpaths]
  have hgd2 : ∀ nJ : OSD, OSDProvisioningAllowed cfg d (Option.some dTier.id)
      { s.host with osds := [nJ] } = Option.none := fun nJ => by
    rw [OSDProvisioningAllowed_set_osds]
    exact hgd
  unfold ReconcileOSDs
  rw [hlist]
  simp [ReconcileOSDsByType, reconcileOSDLoop, buildOSDOpts, setTierUUID,
    FindOSDByPath, sysCreateOSD, hen, hosds, hsys, hjf, hdf, hjj, hdj, hjd, hdd,
    htj, htd, hgj, hgd2, hpbne, FunctionJournal, FunctionOSD,
    FindDiskByPath_set_osds, LookupStorageTier_set_osds]

/-- The data OSD's backing disk of the ordering example. -/
def c9Disk0 : Disk := { id := "disk-0", path := "/dev/sdb" }

/-- The journal OSD's backing disk of the ordering example. -/
def c9Disk1 : Disk := { id := "disk-1", path := "/dev/sdc" }

def c9Tier : StorageTier := { id := "tier-0" }

/-- One desired journal-function OSD. -/
def c9J : OSDInfo :=
  { function := FunctionJournal, path := "/dev/sdc", journal := Option.none,
    cluster := Option.none }

/-- One desired data-function OSD referencing the journal OSD by path. -/
def c9D : OSDInfo :=
  { function := FunctionOSD, path := "/dev/sdb",
    journal := Option.some { location := "/dev/sdc", size := 2 },
    cluster := Option.none }

def c9Host : HostInfo := { exHost with disks := [c9Disk0, c9Disk1] }

def c9State : RState := { sys := exSys, host := c9Host, trace := [] }

/-- The desired configuration listing the data OSD before the journal OSD. -/
def c9Storage : ProfileStorageInfo :=
  { monitor := Option.none, osds := Option.some [c9D, c9J],
    volumeGroups := Option.none, fileSystems := Option.none }

/-- C9 witness: the ordering theorem applied at the example configuration —
the journal OSD's creation is first in the trace and the data OSD's payload
carries the journal's freshly assigned identifier. -/
theorem reconcileOSDs_journal_before_data_witness :
    (ReconcileOSDs allOn c9Storage c9State).2 = Option.none ∧
    (ReconcileOSDs allOn c9Storage c9State).1.trace
      = c9State.trace ++
        [Event.createOSD
          { hostID := Option.some c9State.host.id, diskID := Option.some c9Disk1.id,
            function := Option.some c9J.function, journalLocation := Option.none,
            journalSize := Option.none, tierUUID := Option.some c9Tier.id },
         Event.createOSD
          { hostID := Option.some c9State.host.id, diskID := Option.some c9Disk0.id,
            function := Option.some c9D.function,
            journalLocation := Option.some (mkID c9State.sys.nextID),
            journalSize := Option.some 2, tierUUID := Option.some c9Tier.id }] :=
  reconcileOSDs_journal_before_data allOn c9Storage c9State c9J c9D c9Disk1 c9Disk0
    c9Tier c9Tier 2 rfl rfl rfl rfl rfl rfl (by decide) rfl rfl (by decide) (by decide)
    (by decide) (by decide) (by decide) (by decide)
